import Mathlib

/-!
Shallow embedding of the birthday-reminder Azure function app:
`function_app.py`, `functions/sql/sql.py`, `functions/birthday_logic/birthday.py`
and `functions/emailer/emailer.py`, together with theorems checking the
natural-language specification against this embedding.
-/

namespace BirthdayApp

/-- A Python exception value.  `typeError` models `TypeError` (as raised by the
interpreter for a keyword-argument mismatch), `dbError` models any exception
coming out of the database driver / SQLAlchemy. -/
inductive PyExc where
  | typeError (msg : String)
  | dbError (msg : String)
deriving DecidableEq, Repr

/-- Python `str(exc)`: the message carried by the exception. -/
def PyExc.str : PyExc → String
  | .typeError m => m
  | .dbError m => m

/-- A calendar date, as stored in the `date_of_birth` column. -/
structure Date where
  year : Nat
  month : Nat
  day : Nat
deriving DecidableEq, Repr

/-- A row of `dbo.Birthdays` (columns used by the queries). -/
structure BirthdayRecord where
  FullName : String
  date_of_birth : Date
  EmailTo : String
deriving DecidableEq, Repr

/-- A result row of `get_birthdays_for_date`: `{"name": ..., "email_to": ...}`. -/
structure DailyRow where
  name : String
  email_to : String
deriving DecidableEq, Repr

/-- A result row of `get_birthdays_for_month`:
`{"name": ..., "birthday_day": ..., "email_to": ...}`. -/
structure MonthlyRow where
  name : String
  birthday_day : Nat
  email_to : String
deriving DecidableEq, Repr

/-- Sort key of `ORDER BY EmailTo, FullName` (lexicographic). -/
def dailyKey (a : DailyRow) : Lex (String × String) :=
  toLex (a.email_to, a.name)

/-- The ordering `ORDER BY EmailTo, FullName` on daily result rows. -/
def dailyOrder (a b : DailyRow) : Prop :=
  dailyKey a ≤ dailyKey b

instance : DecidableRel dailyOrder :=
  fun a b => inferInstanceAs (Decidable (dailyKey a ≤ dailyKey b))

instance : IsTotal DailyRow dailyOrder :=
  ⟨fun a b => le_total (dailyKey a) (dailyKey b)⟩

instance : IsTrans DailyRow dailyOrder :=
  ⟨fun _ _ _ h1 h2 => le_trans h1 h2⟩

/-- `dailyOrder` spelt out: ascending by `email_to`, ties broken by `name`. -/
theorem dailyOrder_iff (a b : DailyRow) :
    dailyOrder a b ↔
      a.email_to < b.email_to ∨ (a.email_to = b.email_to ∧ a.name ≤ b.name) :=
  Prod.Lex.le_iff (a.email_to, a.name) (b.email_to, b.name)

/-- Sort key of `ORDER BY EmailTo, DAY(date_of_birth), FullName`. -/
def monthlyKey (a : MonthlyRow) : Lex (String × Lex (Nat × String)) :=
  toLex (a.email_to, toLex (a.birthday_day, a.name))

/-- The ordering `ORDER BY EmailTo, DAY(date_of_birth), FullName`. -/
def monthlyOrder (a b : MonthlyRow) : Prop :=
  monthlyKey a ≤ monthlyKey b

instance : DecidableRel monthlyOrder :=
  fun a b => inferInstanceAs (Decidable (monthlyKey a ≤ monthlyKey b))

instance : IsTotal MonthlyRow monthlyOrder :=
  ⟨fun a b => le_total (monthlyKey a) (monthlyKey b)⟩

instance : IsTrans MonthlyRow monthlyOrder :=
  ⟨fun _ _ _ h1 h2 => le_trans h1 h2⟩

/-- `monthlyOrder` spelt out: ascending by `email_to`, then `birthday_day`,
then `name`. -/
theorem monthlyOrder_iff (a b : MonthlyRow) :
    monthlyOrder a b ↔
      a.email_to < b.email_to ∨
        (a.email_to = b.email_to ∧
          (a.birthday_day < b.birthday_day ∨
            (a.birthday_day = b.birthday_day ∧ a.name ≤ b.name))) := by
  unfold monthlyOrder monthlyKey
  rw [Prod.Lex.le_iff]
  constructor
  · rintro (h | ⟨he, hrest⟩)
    · exact Or.inl h
    · exact Or.inr ⟨he, (Prod.Lex.le_iff (a.birthday_day, a.name) (b.birthday_day, b.name)).mp hrest⟩
  · rintro (h | ⟨he, hrest⟩)
    · exact Or.inl h
    · exact Or.inr ⟨he, (Prod.Lex.le_iff (a.birthday_day, a.name) (b.birthday_day, b.name)).mpr hrest⟩

/-- `SqlClient.get_birthdays_for_date`: the query
`SELECT FullName, EmailTo FROM dbo.Birthdays
 WHERE MONTH(date_of_birth) = MONTH(:date) AND DAY(date_of_birth) = DAY(:date)
 ORDER BY EmailTo, FullName`
over an explicit table of `dbo.Birthdays` rows. -/
def get_birthdays_for_date (table : List BirthdayRecord) (d : Date) : List DailyRow :=
  List.insertionSort dailyOrder
    ((table.filter fun r =>
        r.date_of_birth.month == d.month && r.date_of_birth.day == d.day).map
      fun r => { name := r.FullName, email_to := r.EmailTo })

/-- `SqlClient.get_birthdays_for_month`: the query
`SELECT FullName, DAY(date_of_birth) as birthday_day, EmailTo FROM dbo.Birthdays
 WHERE MONTH(date_of_birth) = MONTH(:date)
 ORDER BY EmailTo, DAY(date_of_birth), FullName`
over an explicit table of `dbo.Birthdays` rows. -/
def get_birthdays_for_month (table : List BirthdayRecord) (d : Date) : List MonthlyRow :=
  List.insertionSort monthlyOrder
    ((table.filter fun r => r.date_of_birth.month == d.month).map
      fun r => { name := r.FullName, birthday_day := r.date_of_birth.day, email_to := r.EmailTo })

/-! ### Email dispatch (`functions/emailer/emailer.py`)

Both exported functions are `pass` stubs: they make no provider call and
return `None`.  We record the number of provider calls explicitly so that
"no provider call is performed" is an observable fact of the embedding. -/

/-- Observable effect of one call to an email-dispatch function. -/
structure EmailDispatch where
  providerCalls : Nat
  result : Except PyExc Unit
deriving Repr

/-- `send_monthly_birthday_summary_email(*, summary_df)`: body is `pass`. -/
def send_monthly_birthday_summary_email (summary_df : List MonthlyRow) : EmailDispatch :=
  { providerCalls := 0, result := .ok () }

/-- `send_daily_birthday_emails(*, birthdays_df)`: body is `pass`. -/
def send_daily_birthday_emails (birthdays_df : List DailyRow) : EmailDispatch :=
  { providerCalls := 0, result := .ok () }

/-! ### Connection retry (`_get_connection` in `functions/sql/sql.py`) -/

/-- An opaque pyodbc connection handle. -/
abbrev Conn := Nat

/-- Observable outcome of one run of the `_get_connection` retry loop:
the returned connection or raised exception, the sequence of `time.sleep`
delays performed (in seconds), and how many `pyodbc.connect` attempts
were made. -/
structure ConnRun where
  result : Except PyExc Conn
  sleeps : List Nat
  attempts : Nat
deriving Repr

/-- The `for attempt in range(1, max_attempts + 1)` loop of `_get_connection`.
`oracle a` is the outcome of the `pyodbc.connect` call on attempt `a`;
`remaining` is the list of attempt numbers still to run; `delay` is the
current `delay_seconds`.  On a failed attempt other than the last, the loop
sleeps `delay` and doubles it; after the last failure the saved exception is
re-raised. -/
def connectGo (oracle : Nat → Except PyExc Conn) (maxAttempts : Nat) :
    List Nat → Nat → ConnRun
  | [], _ => { result := .error (.dbError "no attempts"), sleeps := [], attempts := 0 }
  | a :: rest, delay =>
    match oracle a with
    | .ok c => { result := .ok c, sleeps := [], attempts := 1 }
    | .error e =>
      if a < maxAttempts then
        let r := connectGo oracle maxAttempts rest (delay * 2)
        { result := r.result, sleeps := delay :: r.sleeps, attempts := r.attempts + 1 }
      else
        { result := .error e, sleeps := [], attempts := 1 }

/-- `_get_connection`: `max_attempts = 3`, `delay_seconds = 5`, attempts
numbered 1..3. -/
def _get_connection (oracle : Nat → Except PyExc Conn) : ConnRun :=
  connectGo oracle 3 (List.range' 1 3) 5

/-! ### System events (`dbo.system_events` and the two audit operations) -/

/-- A row of `dbo.system_events`.  Ids are modelled as `Nat` (the source uses
UUIDs; only freshness and equality matter here).  `completed_at` holds the
`SYSUTCDATETIME()` stamp written by `complete_system_event`. -/
structure SystemEventRow where
  id : Nat
  function_name : String
  trigger_type : String
  event_type : String
  status : String
  details : Option String
  completed_at : Option Nat
deriving DecidableEq, Repr

/-- The dataclass `SystemEvent` returned by `start_system_event`. -/
structure SystemEvent where
  id : Nat
deriving DecidableEq, Repr

/-- The visible state of the `dbo.system_events` table, together with the id
the database will hand out for the next inserted row. -/
structure SqlState where
  events : List SystemEventRow
  nextId : Nat
deriving DecidableEq, Repr

/-- Freshness of generated ids: no existing row already carries the id the
next `INSERT ... OUTPUT INSERTED.id` will produce. -/
def SqlState.WF (st : SqlState) : Prop :=
  ∀ r ∈ st.events, r.id ≠ st.nextId

/-- The keyword arguments of one `start_system_event` call.  `status` and
`details` carry the Python defaults. -/
structure StartArgs where
  function_name : String
  trigger_type : String
  event_type : String
  status : String := "started"
  details : Option String := none
deriving DecidableEq, Repr

/-- `SqlClient.start_system_event`: insert one row into `dbo.system_events`
and return its id; any database exception (`flt`) propagates. -/
def start_system_event (flt : Option PyExc) (st : SqlState) (args : StartArgs) :
    Except PyExc (SystemEvent × SqlState) :=
  match flt with
  | some e => .error e
  | none =>
    let row : SystemEventRow :=
      { id := st.nextId
        function_name := args.function_name
        trigger_type := args.trigger_type
        event_type := args.event_type
        status := args.status
        details := args.details
        completed_at := none }
    .ok (⟨st.nextId⟩, { events := st.events ++ [row], nextId := st.nextId + 1 })

/-- `SqlClient.complete_system_event`: the statement
`UPDATE dbo.system_events
 SET status = :status, completed_at = SYSUTCDATETIME(), details = :details
 WHERE id = :system_event_id`.
`now` is the value of `SYSUTCDATETIME()`; a database exception (`flt`)
propagates; the function otherwise returns `None` whether or not any row
matched. -/
def complete_system_event (flt : Option PyExc) (now : Nat) (st : SqlState)
    (system_event_id : Nat) (status : String) (details : Option String) :
    Except PyExc SqlState :=
  match flt with
  | some e => .error e
  | none =>
    .ok { st with
            events := st.events.map fun r =>
              if r.id = system_event_id then
                { r with status := status, details := details, completed_at := some now }
              else r }

/-! ### Python keyword-call semantics -/

/-- Calling a Python function whose keyword-only parameters are `accepted`
with the keyword arguments `passed`: the interpreter raises `TypeError`
before running the body if an argument is unexpected or a required parameter
is missing; otherwise the body (`body`) runs. -/
def callKw (accepted passed : List String) (body : Except PyExc α) : Except PyExc α :=
  match passed.find? (fun k => !(accepted.contains k)) with
  | some k => .error (.typeError ("got an unexpected keyword argument " ++ k))
  | none =>
    match accepted.find? (fun k => !(passed.contains k)) with
    | some k => .error (.typeError ("missing a required keyword-only argument " ++ k))
    | none => body

/-! ### Handler orchestration (`function_app.py`)

All four handlers share the shape
`start event → try: fetch; send; complete(succeeded) except: complete(failed)`.
`HandlerSpec` records what differs between them: the `start_system_event`
arguments and the keyword-parameter lists of the fetch and send calls. -/

/-- Static call data of one handler taken verbatim from `function_app.py`. -/
structure HandlerSpec where
  start_args : StartArgs
  fetch_accepted : List String
  fetch_passed : List String
  send_accepted : List String
  send_passed : List String

/-- Environment of one handler invocation: whether the two audit operations
hit a database fault, the outcome the fetch function's body would produce if
it were reached (`Df` is the dataframe type), and the `SYSUTCDATETIME()`
value seen by `complete_system_event`. -/
structure HandlerEnv (Df : Type) where
  startFault : Option PyExc
  completeFault : Option PyExc
  fetchBody : Except PyExc Df
  now : Nat

/-- What the `except` branch observed: the audit row id of this run and the
exception caught by `except Exception as exc`. -/
structure FailInfo where
  eventId : Nat
  exc : PyExc
deriving DecidableEq, Repr

/-- The common body of the four handlers.  Returns the final table state and
`some` fail info when the `except` branch ran, or propagates an exception
raised outside the `try` block (from `start_system_event`) or inside the
`except` branch itself (from the failure-path `complete_system_event`). -/
def runHandler (spec : HandlerSpec) (sendBody : Df → Except PyExc Unit)
    (env : HandlerEnv Df) (st : SqlState) :
    Except PyExc (SqlState × Option FailInfo) :=
  match start_system_event env.startFault st spec.start_args with
  | .error e => .error e
  | .ok (ev, st1) =>
    let tryResult : Except PyExc SqlState :=
      match callKw spec.fetch_accepted spec.fetch_passed env.fetchBody with
      | .error e => .error e
      | .ok df =>
        match callKw spec.send_accepted spec.send_passed (sendBody df) with
        | .error e => .error e
        | .ok _ => complete_system_event env.completeFault env.now st1 ev.id "succeeded" none
    match tryResult with
    | .ok st2 => .ok (st2, none)
    | .error e =>
      match complete_system_event env.completeFault env.now st1 ev.id "failed" (some e.str) with
      | .error e2 => .error e2
      | .ok st2 => .ok (st2, some { eventId := ev.id, exc := e })

/-- `start_system_event` arguments of `MonthlyBirthdaySummary`. -/
def monthlyStartArgs : StartArgs :=
  { function_name := "MonthlyBirthdaySummaryFunction"
    trigger_type := "timer"
    event_type := "ingestion" }

/-- `start_system_event` arguments of `DailyBirthdaySummary`. -/
def dailyStartArgs : StartArgs :=
  { function_name := "DailyBirthdaySummaryFunction"
    trigger_type := "timer"
    event_type := "ingestion" }

/-- `MonthlyBirthdaySummary`: fetch is
`get_monthly_birthday_summary(sql_client=..., system_event_id=...)` against
`def get_monthly_birthday_summary(*, sql_client)`; send is
`send_monthly_birthday_summary_email(summary_df=...)` against
`def send_monthly_birthday_summary_email(*, summary_df)`. -/
def monthlySpec : HandlerSpec :=
  { start_args := monthlyStartArgs
    fetch_accepted := ["sql_client"]
    fetch_passed := ["sql_client", "system_event_id"]
    send_accepted := ["summary_df"]
    send_passed := ["summary_df"] }

/-- `DailyBirthdaySummary`: fetch is
`get_daily_birthdays(sql_client=..., system_event_id=...)` against
`def get_daily_birthdays(*, sql_client)`; send is
`send_daily_birthday_emails(summary_df=...)` against
`def send_daily_birthday_emails(*, birthdays_df)`. -/
def dailySpec : HandlerSpec :=
  { start_args := dailyStartArgs
    fetch_accepted := ["sql_client"]
    fetch_passed := ["sql_client", "system_event_id"]
    send_accepted := ["birthdays_df"]
    send_passed := ["summary_df"] }

/-- `MonthlyBirthdaySummaryTest` makes exactly the same calls as
`MonthlyBirthdaySummary`, including the same `start_system_event` arguments. -/
def monthlyTestSpec : HandlerSpec :=
  { start_args :=
      { function_name := "MonthlyBirthdaySummaryFunction"
        trigger_type := "timer"
        event_type := "ingestion" }
    fetch_accepted := ["sql_client"]
    fetch_passed := ["sql_client", "system_event_id"]
    send_accepted := ["summary_df"]
    send_passed := ["summary_df"] }

/-- `DailyBirthdaySummaryTest` makes exactly the same calls as
`DailyBirthdaySummary`, including the same `start_system_event` arguments. -/
def dailyTestSpec : HandlerSpec :=
  { start_args :=
      { function_name := "DailyBirthdaySummaryFunction"
        trigger_type := "timer"
        event_type := "ingestion" }
    fetch_accepted := ["sql_client"]
    fetch_passed := ["sql_client", "system_event_id"]
    send_accepted := ["birthdays_df"]
    send_passed := ["summary_df"] }

/-- The timer handler `MonthlyBirthdaySummary`.  A `.ok` result is a normal
return of `None`; `.error` means an exception escaped the handler. -/
def MonthlyBirthdaySummary (env : HandlerEnv (List MonthlyRow)) (st : SqlState) :
    Except PyExc (SqlState × Option FailInfo) :=
  runHandler monthlySpec (fun df => (send_monthly_birthday_summary_email df).result) env st

/-- The timer handler `DailyBirthdaySummary`. -/
def DailyBirthdaySummary (env : HandlerEnv (List DailyRow)) (st : SqlState) :
    Except PyExc (SqlState × Option FailInfo) :=
  runHandler dailySpec (fun df => (send_daily_birthday_emails df).result) env st

/-- The `func.HttpResponse` built in the `except` branch of the HTTP test
handlers: a JSON object (modelled as its field list) plus status code and
mimetype. -/
structure HttpResponse where
  body : List (String × String)
  status_code : Nat
  mimetype : String
deriving DecidableEq, Repr

/-- Wraps the shared handler body with the HTTP behaviour of the two test
routes: on the `except` path, return the 500 JSON response (the trailing
`raise` in the source is dead code after `return`); on the success path the
source returns `None`. -/
def httpWrap (failMessage : String) (r : Except PyExc (SqlState × Option FailInfo)) :
    Except PyExc (Option HttpResponse × SqlState) :=
  match r with
  | .error e => .error e
  | .ok (st, none) => .ok (none, st)
  | .ok (st, some fi) =>
    .ok (some
      { body :=
          [("status", "error"),
           ("message", failMessage),
           ("system_event_id", toString fi.eventId)]
        status_code := 500
        mimetype := "application/json" }, st)

/-- The HTTP test handler `MonthlyBirthdaySummaryTest`. -/
def MonthlyBirthdaySummaryTest (env : HandlerEnv (List MonthlyRow)) (st : SqlState) :
    Except PyExc (Option HttpResponse × SqlState) :=
  httpWrap "MonthlyBirthdaySummaryFunction failed"
    (runHandler monthlyTestSpec (fun df => (send_monthly_birthday_summary_email df).result) env st)

/-- The HTTP test handler `DailyBirthdaySummaryTest`. -/
def DailyBirthdaySummaryTest (env : HandlerEnv (List DailyRow)) (st : SqlState) :
    Except PyExc (Option HttpResponse × SqlState) :=
  httpWrap "DailyBirthdaySummaryFunction failed"
    (runHandler dailyTestSpec (fun df => (send_daily_birthday_emails df).result) env st)

/-! ### Shared facts about the handlers -/

/-- The `TypeError` the interpreter raises for every fetch call in
`function_app.py`: both `get_monthly_birthday_summary` and
`get_daily_birthdays` accept only `sql_client`, yet every handler also
passes `system_event_id`. -/
def fetchKwExc : PyExc :=
  .typeError "got an unexpected keyword argument system_event_id"

/-- The `TypeError` the daily send call would raise if it were reached:
`send_daily_birthday_emails` accepts only `birthdays_df`, but the daily
handlers pass `summary_df`. -/
def sendKwExc : PyExc :=
  .typeError "got an unexpected keyword argument summary_df"

theorem callKw_fetch {Df : Type} (b : Except PyExc Df) :
    callKw ["sql_client"] ["sql_client", "system_event_id"] b = .error fetchKwExc :=
  rfl

theorem callKw_daily_send (b : Except PyExc Unit) :
    callKw ["birthdays_df"] ["summary_df"] b = .error sendKwExc :=
  rfl

/-- The audit row as it looks after a failed run: inserted by
`start_system_event` with `args`, then updated by the `except` branch's
`complete_system_event` with status `failed` and the stringified exception. -/
def failedRow (args : StartArgs) (id now : Nat) (e : PyExc) : SystemEventRow :=
  { id := id
    function_name := args.function_name
    trigger_type := args.trigger_type
    event_type := args.event_type
    status := "failed"
    details := some e.str
    completed_at := some now }

theorem map_fresh {l : List SystemEventRow} {n : Nat}
    (g : SystemEventRow → SystemEventRow) (h : ∀ r ∈ l, r.id ≠ n) :
    (l.map fun r => if r.id = n then g r else r) = l := by
  induction l with
  | nil => rfl
  | cons a t ih =>
    simp only [List.map_cons]
    rw [if_neg (h a (List.mem_cons_self a t)), ih fun r hr => h r (List.mem_cons_of_mem _ hr)]

/-- On an environment whose audit operations do not fault, a handler whose
fetch call raises ends with exactly one new audit row, completed as
`failed` with the stringified exception, and returns normally with that
fail info. -/
theorem runHandler_fetch_error {Df : Type} (spec : HandlerSpec)
    (sendBody : Df → Except PyExc Unit) (env : HandlerEnv Df) (st : SqlState)
    (hwf : st.WF) (hs : env.startFault = none) (hc : env.completeFault = none)
    (e : PyExc)
    (hf : callKw spec.fetch_accepted spec.fetch_passed env.fetchBody = .error e) :
    runHandler spec sendBody env st =
      .ok ({ events := st.events ++ [failedRow spec.start_args st.nextId env.now e]
             nextId := st.nextId + 1 },
           some { eventId := st.nextId, exc := e }) := by
  unfold runHandler
  rw [hs, hf]
  unfold start_system_event complete_system_event
  rw [hc]
  simp only [List.map_append, List.map_cons, List.map_nil, if_pos rfl]
  rw [map_fresh _ hwf]
  rfl

/-- `MonthlyBirthdaySummary`, fully evaluated when the two audit operations
do not fault. -/
theorem monthly_failed_run (env : HandlerEnv (List MonthlyRow)) (st : SqlState)
    (hwf : st.WF) (hs : env.startFault = none) (hc : env.completeFault = none) :
    MonthlyBirthdaySummary env st =
      .ok ({ events := st.events ++ [failedRow monthlyStartArgs st.nextId env.now fetchKwExc]
             nextId := st.nextId + 1 },
           some { eventId := st.nextId, exc := fetchKwExc }) :=
  runHandler_fetch_error _ _ env st hwf hs hc _ (callKw_fetch _)

/-- `DailyBirthdaySummary`, fully evaluated when the two audit operations do
not fault. -/
theorem daily_failed_run (env : HandlerEnv (List DailyRow)) (st : SqlState)
    (hwf : st.WF) (hs : env.startFault = none) (hc : env.completeFault = none) :
    DailyBirthdaySummary env st =
      .ok ({ events := st.events ++ [failedRow dailyStartArgs st.nextId env.now fetchKwExc]
             nextId := st.nextId + 1 },
           some { eventId := st.nextId, exc := fetchKwExc }) :=
  runHandler_fetch_error _ _ env st hwf hs hc _ (callKw_fetch _)

/-- The 500 response built by `MonthlyBirthdaySummaryTest` on failure. -/
def monthlyTestResponse (eventId : Nat) : HttpResponse :=
  { body :=
      [("status", "error"),
       ("message", "MonthlyBirthdaySummaryFunction failed"),
       ("system_event_id", toString eventId)]
    status_code := 500
    mimetype := "application/json" }

/-- The 500 response built by `DailyBirthdaySummaryTest` on failure. -/
def dailyTestResponse (eventId : Nat) : HttpResponse :=
  { body :=
      [("status", "error"),
       ("message", "DailyBirthdaySummaryFunction failed"),
       ("system_event_id", toString eventId)]
    status_code := 500
    mimetype := "application/json" }

/-- `MonthlyBirthdaySummaryTest`, fully evaluated when the two audit
operations do not fault. -/
theorem monthlyTest_failed_run (env : HandlerEnv (List MonthlyRow)) (st : SqlState)
    (hwf : st.WF) (hs : env.startFault = none) (hc : env.completeFault = none) :
    MonthlyBirthdaySummaryTest env st =
      .ok (some (monthlyTestResponse st.nextId),
           { events := st.events ++ [failedRow monthlyStartArgs st.nextId env.now fetchKwExc]
             nextId := st.nextId + 1 }) := by
  unfold MonthlyBirthdaySummaryTest
  rw [runHandler_fetch_error _ _ env st hwf hs hc _ (callKw_fetch _)]
  rfl

/-- `DailyBirthdaySummaryTest`, fully evaluated when the two audit operations
do not fault. -/
theorem dailyTest_failed_run (env : HandlerEnv (List DailyRow)) (st : SqlState)
    (hwf : st.WF) (hs : env.startFault = none) (hc : env.completeFault = none) :
    DailyBirthdaySummaryTest env st =
      .ok (some (dailyTestResponse st.nextId),
           { events := st.events ++ [failedRow dailyStartArgs st.nextId env.now fetchKwExc]
             nextId := st.nextId + 1 }) := by
  unfold DailyBirthdaySummaryTest
  rw [runHandler_fetch_error _ _ env st hwf hs hc _ (callKw_fetch _)]
  rfl

/-- "The fetch step completed without exception": the keyword-checked call
of the fetch function returned a dataframe. -/
def FetchCompleted {Df : Type} (accepted passed : List String)
    (body : Except PyExc Df) : Prop :=
  ∃ df, callKw accepted passed body = .ok df

/-- "The send step completed without exception": the fetch call returned a
dataframe and the keyword-checked send call on it returned `None`. -/
def SendCompleted {Df : Type} (spec : HandlerSpec)
    (sendBody : Df → Except PyExc Unit) (body : Except PyExc Df) : Prop :=
  ∃ df, callKw spec.fetch_accepted spec.fetch_passed body = .ok df ∧
    callKw spec.send_accepted spec.send_passed (sendBody df) = .ok ()

theorem fetchCompleted_false {Df : Type} (b : Except PyExc Df) :
    ¬ FetchCompleted ["sql_client"] ["sql_client", "system_event_id"] b := by
  rintro ⟨df, h⟩
  rw [callKw_fetch] at h
  exact Except.noConfusion h

/-- Exhaustive case analysis of one `_get_connection` run: success on the
first, second or third attempt, or failure of all three. -/
theorem get_connection_cases (oracle : Nat → Except PyExc Conn) :
    (∃ c, oracle 1 = .ok c ∧ _get_connection oracle = ⟨.ok c, [], 1⟩)
    ∨ (∃ e1 c, oracle 1 = .error e1 ∧ oracle 2 = .ok c ∧
        _get_connection oracle = ⟨.ok c, [5], 2⟩)
    ∨ (∃ e1 e2 c, oracle 1 = .error e1 ∧ oracle 2 = .error e2 ∧ oracle 3 = .ok c ∧
        _get_connection oracle = ⟨.ok c, [5, 10], 3⟩)
    ∨ (∃ e1 e2 e3, oracle 1 = .error e1 ∧ oracle 2 = .error e2 ∧ oracle 3 = .error e3 ∧
        _get_connection oracle = ⟨.error e3, [5, 10], 3⟩) := by
  have hdef : _get_connection oracle = connectGo oracle 3 [1, 2, 3] 5 := rfl
  rcases h1 : oracle 1 with e1 | c1
  · rcases h2 : oracle 2 with e2 | c2
    · rcases h3 : oracle 3 with e3 | c3
      · refine Or.inr (Or.inr (Or.inr ⟨e1, e2, e3, rfl, rfl, rfl, ?_⟩))
        rw [hdef]
        simp [connectGo, h1, h2, h3]
      · refine Or.inr (Or.inr (Or.inl ⟨e1, e2, c3, rfl, rfl, rfl, ?_⟩))
        rw [hdef]
        simp [connectGo, h1, h2, h3]
    · refine Or.inr (Or.inl ⟨e1, c2, rfl, rfl, ?_⟩)
      rw [hdef]
      simp [connectGo, h1, h2]
  · refine Or.inl ⟨c1, rfl, ?_⟩
    rw [hdef]
    simp [connectGo, h1]

/-! ### Claim theorems -/

/-- C2: for every reference date `d` and every table of birthday records,
`get_birthdays_for_date` returns exactly those records whose `date_of_birth`
has the same month and day as `d` (any year), projected to
`{name, email_to}` (as a multiset: the output is a permutation of the
projected selection, and a row is in the output iff some matching record
projects to it), sorted ascending by `email_to` and then by `name`. -/
theorem get_birthdays_for_date_spec (table : List BirthdayRecord) (d : Date) :
    List.Perm (get_birthdays_for_date table d)
      ((table.filter fun r =>
          r.date_of_birth.month == d.month && r.date_of_birth.day == d.day).map
        fun r => { name := r.FullName, email_to := r.EmailTo })
    ∧ (∀ row : DailyRow, row ∈ get_birthdays_for_date table d ↔
        ∃ r ∈ table, r.date_of_birth.month = d.month ∧ r.date_of_birth.day = d.day ∧
          row = { name := r.FullName, email_to := r.EmailTo })
    ∧ List.Sorted
        (fun a b : DailyRow =>
          a.email_to < b.email_to ∨ (a.email_to = b.email_to ∧ a.name ≤ b.name))
        (get_birthdays_for_date table d) := by
  have hperm := List.perm_insertionSort dailyOrder
    ((table.filter fun r =>
        r.date_of_birth.month == d.month && r.date_of_birth.day == d.day).map
      fun r => { name := r.FullName, email_to := r.EmailTo })
  refine ⟨hperm, ?_, ?_⟩
  · intro row
    rw [show get_birthdays_for_date table d =
          List.insertionSort dailyOrder
            ((table.filter fun r =>
                r.date_of_birth.month == d.month && r.date_of_birth.day == d.day).map
              fun r => { name := r.FullName, email_to := r.EmailTo }) from rfl,
        hperm.mem_iff]
    simp only [List.mem_map, List.mem_filter, Bool.and_eq_true, beq_iff_eq]
    constructor
    · rintro ⟨r, ⟨hr, hm, hd⟩, heq⟩
      exact ⟨r, hr, hm, hd, heq.symm⟩
    · rintro ⟨r, hr, hm, hd, heq⟩
      exact ⟨r, ⟨hr, hm, hd⟩, heq.symm⟩
  · exact List.Pairwise.imp (fun hab => (dailyOrder_iff _ _).mp hab)
      (List.sorted_insertionSort dailyOrder _)

/-- C3: for every reference date `d` and every table of birthday records,
`get_birthdays_for_month` returns exactly those records whose
`date_of_birth` has the same month as `d` (any year), projected to
`{name, birthday_day, email_to}` with `birthday_day` the day-of-month of
`date_of_birth`, sorted ascending by `email_to`, then `birthday_day`, then
`name`. -/
theorem get_birthdays_for_month_spec (table : List BirthdayRecord) (d : Date) :
    List.Perm (get_birthdays_for_month table d)
      ((table.filter fun r => r.date_of_birth.month == d.month).map
        fun r => { name := r.FullName, birthday_day := r.date_of_birth.day, email_to := r.EmailTo })
    ∧ (∀ row : MonthlyRow, row ∈ get_birthdays_for_month table d ↔
        ∃ r ∈ table, r.date_of_birth.month = d.month ∧
          row = { name := r.FullName, birthday_day := r.date_of_birth.day, email_to := r.EmailTo })
    ∧ List.Sorted
        (fun a b : MonthlyRow =>
          a.email_to < b.email_to ∨
            (a.email_to = b.email_to ∧
              (a.birthday_day < b.birthday_day ∨
                (a.birthday_day = b.birthday_day ∧ a.name ≤ b.name))))
        (get_birthdays_for_month table d) := by
  have hperm := List.perm_insertionSort monthlyOrder
    ((table.filter fun r => r.date_of_birth.month == d.month).map
      fun r => { name := r.FullName, birthday_day := r.date_of_birth.day, email_to := r.EmailTo })
  refine ⟨hperm, ?_, ?_⟩
  · intro row
    rw [show get_birthdays_for_month table d =
          List.insertionSort monthlyOrder
            ((table.filter fun r => r.date_of_birth.month == d.month).map
              fun r => { name := r.FullName, birthday_day := r.date_of_birth.day, email_to := r.EmailTo })
          from rfl,
        hperm.mem_iff]
    simp only [List.mem_map, List.mem_filter, beq_iff_eq]
    constructor
    · rintro ⟨r, ⟨hr, hm⟩, heq⟩
      exact ⟨r, hr, hm, heq.symm⟩
    · rintro ⟨r, hr, hm, heq⟩
      exact ⟨r, ⟨hr, hm⟩, heq.symm⟩
  · exact List.Pairwise.imp (fun hab => (monthlyOrder_iff _ _).mp hab)
      (List.sorted_insertionSort monthlyOrder _)

/-- C9: calling either email-dispatch function on an empty row list performs
no provider send call and returns without raising. -/
theorem emailer_empty_noop :
    (send_monthly_birthday_summary_email []).providerCalls = 0
    ∧ (send_monthly_birthday_summary_email []).result = .ok ()
    ∧ (send_daily_birthday_emails []).providerCalls = 0
    ∧ (send_daily_birthday_emails []).result = .ok () :=
  ⟨rfl, rfl, rfl, rfl⟩

/-- C10: both HTTP test handlers start their audit rows with exactly the same
`start_system_event` arguments as the corresponding timer handlers —
`trigger_type="timer"` and function names `MonthlyBirthdaySummaryFunction` /
`DailyBirthdaySummaryFunction` — so the inserted `SystemEvent` row of a
manual HTTP test run is field-for-field identical to that of a scheduled
timer run. -/
theorem test_handlers_indistinguishable :
    monthlyTestSpec.start_args = monthlySpec.start_args
    ∧ dailyTestSpec.start_args = dailySpec.start_args
    ∧ monthlyTestSpec.start_args.trigger_type = "timer"
    ∧ dailyTestSpec.start_args.trigger_type = "timer"
    ∧ monthlyTestSpec.start_args.function_name = "MonthlyBirthdaySummaryFunction"
    ∧ dailyTestSpec.start_args.function_name = "DailyBirthdaySummaryFunction"
    ∧ ∀ (flt : Option PyExc) (st : SqlState),
        start_system_event flt st monthlyTestSpec.start_args =
            start_system_event flt st monthlySpec.start_args
        ∧ start_system_event flt st dailyTestSpec.start_args =
            start_system_event flt st dailySpec.start_args :=
  ⟨rfl, rfl, rfl, rfl, rfl, rfl, fun _ _ => ⟨rfl, rfl⟩⟩

/-- C6: `_get_connection` makes at most 3 connect attempts with delays that
start at 5 seconds and double after each failure; failing twice then
succeeding on the third attempt returns that connection with no error;
failing all three times raises the third attempt's exception. -/
theorem get_connection_retry_spec (oracle : Nat → Except PyExc Conn) :
    (_get_connection oracle).attempts ≤ 3
    ∧ (∀ i, ∀ h : i < (_get_connection oracle).sleeps.length,
        (_get_connection oracle).sleeps.get ⟨i, h⟩ = 5 * 2 ^ i)
    ∧ (∀ e1 e2 c, oracle 1 = .error e1 → oracle 2 = .error e2 → oracle 3 = .ok c →
        (_get_connection oracle).result = .ok c
        ∧ (_get_connection oracle).sleeps = [5, 10]
        ∧ (_get_connection oracle).attempts = 3)
    ∧ (∀ e1 e2 e3, oracle 1 = .error e1 → oracle 2 = .error e2 → oracle 3 = .error e3 →
        (_get_connection oracle).result = .error e3
        ∧ (_get_connection oracle).attempts = 3) := by
  rcases get_connection_cases oracle with
      ⟨c, h1, hrun⟩ | ⟨e1, c, h1, h2, hrun⟩ | ⟨e1, e2, c, h1, h2, h3, hrun⟩ |
      ⟨e1, e2, e3, h1, h2, h3, hrun⟩
  · rw [hrun]
    refine ⟨(by decide : (1 : Nat) ≤ 3), ?_, ?_, ?_⟩
    · intro i h
      exact absurd h (by simp)
    · intro f1 f2 d hf1 hf2 hf3
      rw [h1] at hf1
      exact Except.noConfusion hf1
    · intro f1 f2 f3 hf1 hf2 hf3
      rw [h1] at hf1
      exact Except.noConfusion hf1
  · rw [hrun]
    refine ⟨(by decide : (2 : Nat) ≤ 3), ?_, ?_, ?_⟩
    · intro i h
      simp only [List.length_cons, List.length_nil] at h
      interval_cases i
      · rfl
    · intro f1 f2 d hf1 hf2 hf3
      rw [h2] at hf2
      exact Except.noConfusion hf2
    · intro f1 f2 f3 hf1 hf2 hf3
      rw [h2] at hf2
      exact Except.noConfusion hf2
  · rw [hrun]
    refine ⟨(by decide : (3 : Nat) ≤ 3), ?_, ?_, ?_⟩
    · intro i h
      simp only [List.length_cons, List.length_nil] at h
      interval_cases i
      · rfl
      · rfl
    · intro f1 f2 d hf1 hf2 hf3
      rw [h3] at hf3
      exact ⟨by rw [Except.ok.injEq] at hf3; rw [hf3], rfl, rfl⟩
    · intro f1 f2 f3 hf1 hf2 hf3
      rw [h3] at hf3
      exact Except.noConfusion hf3
  · rw [hrun]
    refine ⟨(by decide : (3 : Nat) ≤ 3), ?_, ?_, ?_⟩
    · intro i h
      simp only [List.length_cons, List.length_nil] at h
      interval_cases i
      · rfl
      · rfl
    · intro f1 f2 d hf1 hf2 hf3
      rw [h3] at hf3
      exact Except.noConfusion hf3
    · intro f1 f2 f3 hf1 hf2 hf3
      rw [h3] at hf3
      rw [Except.error.injEq] at hf3
      exact ⟨by rw [hf3], rfl⟩

/-- A connect oracle that fails on attempts 1 and 2 and succeeds on 3. -/
def oracleFFS : Nat → Except PyExc Conn :=
  fun a => if a = 3 then .ok 7 else .error (.dbError "login timeout")

/-- A connect oracle that fails on every attempt. -/
def oracleFFF : Nat → Except PyExc Conn :=
  fun a => .error (.dbError ("refused " ++ toString a))

/-- Witness for C6 at two concrete oracles. -/
theorem get_connection_retry_spec_witness :
    (_get_connection oracleFFS).result = .ok 7
    ∧ (_get_connection oracleFFS).sleeps = [5, 10]
    ∧ (_get_connection oracleFFS).attempts = 3
    ∧ (_get_connection oracleFFF).result = .error (.dbError "refused 3")
    ∧ (_get_connection oracleFFF).attempts = 3 := by
  have hS := (get_connection_retry_spec oracleFFS).2.2.1
    (.dbError "login timeout") (.dbError "login timeout") 7 rfl rfl rfl
  have hF := (get_connection_retry_spec oracleFFF).2.2.2
    (.dbError "refused 1") (.dbError "refused 2") (.dbError "refused 3") rfl rfl rfl
  exact ⟨hS.1, hS.2.1, hS.2.2, hF.1, hF.2⟩

/-- C8: `complete_system_event` updates only the row with the given id
(setting its status, details and completion timestamp), leaves every other
row and the rest of the state unchanged, silently does nothing (still
returning normally) when no row has that id, and raises exactly when the
database faults. -/
theorem complete_system_event_spec (flt : Option PyExc) (now : Nat) (st : SqlState)
    (id0 : Nat) (status : String) (details : Option String) :
    (∃ st2, complete_system_event none now st id0 status details = .ok st2
      ∧ st2.nextId = st.nextId
      ∧ st2.events.length = st.events.length
      ∧ (∀ i, ∀ h2 : i < st2.events.length, ∀ h1 : i < st.events.length,
          ((st.events.get ⟨i, h1⟩).id ≠ id0 →
            st2.events.get ⟨i, h2⟩ = st.events.get ⟨i, h1⟩)
          ∧ ((st.events.get ⟨i, h1⟩).id = id0 →
            st2.events.get ⟨i, h2⟩ =
              { st.events.get ⟨i, h1⟩ with
                  status := status, details := details, completed_at := some now }))
      ∧ ((∀ r ∈ st.events, r.id ≠ id0) → st2 = st))
    ∧ (∀ e, complete_system_event flt now st id0 status details = .error e ↔ flt = some e) := by
  constructor
  · refine ⟨{ st with
        events := st.events.map fun r =>
          if r.id = id0 then
            { r with status := status, details := details, completed_at := some now }
          else r }, rfl, rfl, by simp, ?_, ?_⟩
    · intro i h2 h1
      constructor
      · intro hne
        simp only [List.get_eq_getElem] at hne
        simp only [List.get_eq_getElem, List.getElem_map]
        rw [if_neg hne]
      · intro heq
        simp only [List.get_eq_getElem] at heq
        simp only [List.get_eq_getElem, List.getElem_map]
        rw [if_pos heq]
    · intro hall
      rw [map_fresh _ hall]
  · intro e
    cases flt with
    | none => simp [complete_system_event]
    | some f => simp [complete_system_event]

/-- A started audit row used by concrete witnesses. -/
def rowStarted : SystemEventRow :=
  { id := 0
    function_name := "MonthlyBirthdaySummaryFunction"
    trigger_type := "timer"
    event_type := "ingestion"
    status := "started"
    details := none
    completed_at := none }

/-- A one-row table state used by concrete witnesses. -/
def stOne : SqlState := { events := [rowStarted], nextId := 1 }

/-- Witness for C8 at a concrete state, id, and fault. -/
theorem complete_system_event_spec_witness :
    (∃ st2, complete_system_event none 42 stOne 0 "succeeded" none = .ok st2
      ∧ st2.nextId = stOne.nextId
      ∧ st2.events.length = stOne.events.length)
    ∧ (complete_system_event (some (.dbError "down")) 42 stOne 0 "succeeded" none =
        .error (.dbError "down") ↔ (some (.dbError "down") : Option PyExc) = some (.dbError "down"))
    ∧ (∃ st2, complete_system_event none 42 stOne 5 "succeeded" none = .ok st2 ∧ st2 = stOne) := by
  have h1 := (complete_system_event_spec none 42 stOne 0 "succeeded" none).1
  have h2 := (complete_system_event_spec (some (.dbError "down")) 42 stOne 0 "succeeded" none).2
    (.dbError "down")
  have h3 := (complete_system_event_spec none 42 stOne 5 "succeeded" none).1
  refine ⟨?_, h2, ?_⟩
  · obtain ⟨st2, ha, hb, hc, _⟩ := h1
    exact ⟨st2, ha, hb, hc⟩
  · obtain ⟨st2, ha, _, _, _, hnoop⟩ := h3
    refine ⟨st2, ha, hnoop ?_⟩
    intro r hr
    simp only [stOne, List.mem_singleton] at hr
    rw [hr]
    simp [rowStarted]

/-- C1: every invocation of any of the four handlers (with the audit
operations themselves not faulting, and fresh ids) creates exactly one new
`SystemEvent` row; its terminal status is `succeeded` iff the fetch step and
the send step both completed without exception, and otherwise it is `failed`
with non-empty details. -/
theorem audit_row_per_invocation :
    (∀ (env : HandlerEnv (List MonthlyRow)) (st : SqlState),
      st.WF → env.startFault = none → env.completeFault = none →
      ∃ (row : SystemEventRow) (st2 : SqlState) (fi : Option FailInfo),
        MonthlyBirthdaySummary env st = .ok (st2, fi)
        ∧ st2.events = st.events ++ [row]
        ∧ (row.status = "succeeded" ↔
            FetchCompleted monthlySpec.fetch_accepted monthlySpec.fetch_passed env.fetchBody
            ∧ SendCompleted monthlySpec
                (fun df => (send_monthly_birthday_summary_email df).result) env.fetchBody)
        ∧ (row.status ≠ "succeeded" →
            row.status = "failed" ∧ ∃ d, row.details = some d ∧ d ≠ ""))
    ∧ (∀ (env : HandlerEnv (List DailyRow)) (st : SqlState),
      st.WF → env.startFault = none → env.completeFault = none →
      ∃ (row : SystemEventRow) (st2 : SqlState) (fi : Option FailInfo),
        DailyBirthdaySummary env st = .ok (st2, fi)
        ∧ st2.events = st.events ++ [row]
        ∧ (row.status = "succeeded" ↔
            FetchCompleted dailySpec.fetch_accepted dailySpec.fetch_passed env.fetchBody
            ∧ SendCompleted dailySpec
                (fun df => (send_daily_birthday_emails df).result) env.fetchBody)
        ∧ (row.status ≠ "succeeded" →
            row.status = "failed" ∧ ∃ d, row.details = some d ∧ d ≠ ""))
    ∧ (∀ (env : HandlerEnv (List MonthlyRow)) (st : SqlState),
      st.WF → env.startFault = none → env.completeFault = none →
      ∃ (row : SystemEventRow) (st2 : SqlState) (resp : Option HttpResponse),
        MonthlyBirthdaySummaryTest env st = .ok (resp, st2)
        ∧ st2.events = st.events ++ [row]
        ∧ (row.status = "succeeded" ↔
            FetchCompleted monthlyTestSpec.fetch_accepted monthlyTestSpec.fetch_passed env.fetchBody
            ∧ SendCompleted monthlyTestSpec
                (fun df => (send_monthly_birthday_summary_email df).result) env.fetchBody)
        ∧ (row.status ≠ "succeeded" →
            row.status = "failed" ∧ ∃ d, row.details = some d ∧ d ≠ ""))
    ∧ (∀ (env : HandlerEnv (List DailyRow)) (st : SqlState),
      st.WF → env.startFault = none → env.completeFault = none →
      ∃ (row : SystemEventRow) (st2 : SqlState) (resp : Option HttpResponse),
        DailyBirthdaySummaryTest env st = .ok (resp, st2)
        ∧ st2.events = st.events ++ [row]
        ∧ (row.status = "succeeded" ↔
            FetchCompleted dailyTestSpec.fetch_accepted dailyTestSpec.fetch_passed env.fetchBody
            ∧ SendCompleted dailyTestSpec
                (fun df => (send_daily_birthday_emails df).result) env.fetchBody)
        ∧ (row.status ≠ "succeeded" →
            row.status = "failed" ∧ ∃ d, row.details = some d ∧ d ≠ "")) := by
  refine ⟨?_, ?_, ?_, ?_⟩
  · intro env st hwf hs hc
    refine ⟨failedRow monthlyStartArgs st.nextId env.now fetchKwExc, _, _,
      monthly_failed_run env st hwf hs hc, rfl, ?_, ?_⟩
    · refine iff_of_false (fun h => ?_) (fun h => fetchCompleted_false env.fetchBody h.1)
      exact (by decide : ¬("failed" = "succeeded")) h
    · intro _
      exact ⟨rfl, fetchKwExc.str, rfl, by decide⟩
  · intro env st hwf hs hc
    refine ⟨failedRow dailyStartArgs st.nextId env.now fetchKwExc, _, _,
      daily_failed_run env st hwf hs hc, rfl, ?_, ?_⟩
    · refine iff_of_false (fun h => ?_) (fun h => fetchCompleted_false env.fetchBody h.1)
      exact (by decide : ¬("failed" = "succeeded")) h
    · intro _
      exact ⟨rfl, fetchKwExc.str, rfl, by decide⟩
  · intro env st hwf hs hc
    refine ⟨failedRow monthlyStartArgs st.nextId env.now fetchKwExc, _, _,
      monthlyTest_failed_run env st hwf hs hc, rfl, ?_, ?_⟩
    · refine iff_of_false (fun h => ?_) (fun h => fetchCompleted_false env.fetchBody h.1)
      exact (by decide : ¬("failed" = "succeeded")) h
    · intro _
      exact ⟨rfl, fetchKwExc.str, rfl, by decide⟩
  · intro env st hwf hs hc
    refine ⟨failedRow dailyStartArgs st.nextId env.now fetchKwExc, _, _,
      dailyTest_failed_run env st hwf hs hc, rfl, ?_, ?_⟩
    · refine iff_of_false (fun h => ?_) (fun h => fetchCompleted_false env.fetchBody h.1)
      exact (by decide : ¬("failed" = "succeeded")) h
    · intro _
      exact ⟨rfl, fetchKwExc.str, rfl, by decide⟩

/-- Environment for the monthly-handler witnesses: no database faults, the
fetch body would return an empty dataframe. -/
def envM : HandlerEnv (List MonthlyRow) :=
  { startFault := none, completeFault := none, fetchBody := .ok [], now := 0 }

/-- Environment for the daily-handler witnesses. -/
def envD : HandlerEnv (List DailyRow) :=
  { startFault := none, completeFault := none, fetchBody := .ok [], now := 0 }

/-- An empty `dbo.system_events` table. -/
def stEmpty : SqlState := { events := [], nextId := 0 }

theorem stEmpty_wf : stEmpty.WF :=
  fun r hr => absurd hr (List.not_mem_nil r)

/-- Witness for C1: all four handler invariants at a concrete environment
and state. -/
theorem audit_row_per_invocation_witness :
    (∃ (row : SystemEventRow) (st2 : SqlState) (fi : Option FailInfo),
      MonthlyBirthdaySummary envM stEmpty = .ok (st2, fi)
      ∧ st2.events = stEmpty.events ++ [row]
      ∧ (row.status ≠ "succeeded" →
          row.status = "failed" ∧ ∃ d, row.details = some d ∧ d ≠ ""))
    ∧ (∃ (row : SystemEventRow) (st2 : SqlState) (fi : Option FailInfo),
      DailyBirthdaySummary envD stEmpty = .ok (st2, fi)
      ∧ st2.events = stEmpty.events ++ [row])
    ∧ (∃ (row : SystemEventRow) (st2 : SqlState) (resp : Option HttpResponse),
      MonthlyBirthdaySummaryTest envM stEmpty = .ok (resp, st2)
      ∧ st2.events = stEmpty.events ++ [row])
    ∧ (∃ (row : SystemEventRow) (st2 : SqlState) (resp : Option HttpResponse),
      DailyBirthdaySummaryTest envD stEmpty = .ok (resp, st2)
      ∧ st2.events = stEmpty.events ++ [row]) := by
  obtain ⟨row1, st1, fi1, ha1, hb1, _, hd1⟩ :=
    audit_row_per_invocation.1 envM stEmpty stEmpty_wf rfl rfl
  obtain ⟨row2, st2, fi2, ha2, hb2, _, _⟩ :=
    audit_row_per_invocation.2.1 envD stEmpty stEmpty_wf rfl rfl
  obtain ⟨row3, st3, resp3, ha3, hb3, _, _⟩ :=
    audit_row_per_invocation.2.2.1 envM stEmpty stEmpty_wf rfl rfl
  obtain ⟨row4, st4, resp4, ha4, hb4, _, _⟩ :=
    audit_row_per_invocation.2.2.2 envD stEmpty stEmpty_wf rfl rfl
  exact ⟨⟨row1, st1, fi1, ha1, hb1, hd1⟩, ⟨row2, st2, fi2, ha2, hb2⟩,
    ⟨row3, st3, resp3, ha3, hb3⟩, ⟨row4, st4, resp4, ha4, hb4⟩⟩

/-- C4: in every invocation of any of the four handlers in which the audit
operations themselves succeed, the fetch call raises
`TypeError: got an unexpected keyword argument system_event_id` (the fetch
functions accept only `sql_client`), the daily send call would likewise
reject its `summary_df` keyword (its only parameter is `birthdays_df`), and
the audit row is always completed with status `failed`, never `succeeded`. -/
theorem handlers_always_fail_with_typeError :
    fetchKwExc = .typeError "got an unexpected keyword argument system_event_id"
    ∧ (∀ b : Except PyExc (List MonthlyRow),
        callKw monthlySpec.fetch_accepted monthlySpec.fetch_passed b = .error fetchKwExc)
    ∧ (∀ b : Except PyExc (List DailyRow),
        callKw dailySpec.fetch_accepted dailySpec.fetch_passed b = .error fetchKwExc)
    ∧ sendKwExc = .typeError "got an unexpected keyword argument summary_df"
    ∧ (∀ b : Except PyExc Unit,
        callKw dailySpec.send_accepted dailySpec.send_passed b = .error sendKwExc)
    ∧ (∀ (env : HandlerEnv (List MonthlyRow)) (st : SqlState),
      st.WF → env.startFault = none → env.completeFault = none →
      ∃ st2, MonthlyBirthdaySummary env st =
          .ok (st2, some { eventId := st.nextId, exc := fetchKwExc })
        ∧ ∃ row, st2.events = st.events ++ [row]
          ∧ row.status = "failed" ∧ row.status ≠ "succeeded")
    ∧ (∀ (env : HandlerEnv (List DailyRow)) (st : SqlState),
      st.WF → env.startFault = none → env.completeFault = none →
      ∃ st2, DailyBirthdaySummary env st =
          .ok (st2, some { eventId := st.nextId, exc := fetchKwExc })
        ∧ ∃ row, st2.events = st.events ++ [row]
          ∧ row.status = "failed" ∧ row.status ≠ "succeeded")
    ∧ (∀ (env : HandlerEnv (List MonthlyRow)) (st : SqlState),
      st.WF → env.startFault = none → env.completeFault = none →
      ∃ st2, runHandler monthlyTestSpec
          (fun df => (send_monthly_birthday_summary_email df).result) env st =
          .ok (st2, some { eventId := st.nextId, exc := fetchKwExc })
        ∧ ∃ row, st2.events = st.events ++ [row]
          ∧ row.status = "failed" ∧ row.status ≠ "succeeded")
    ∧ (∀ (env : HandlerEnv (List DailyRow)) (st : SqlState),
      st.WF → env.startFault = none → env.completeFault = none →
      ∃ st2, runHandler dailyTestSpec
          (fun df => (send_daily_birthday_emails df).result) env st =
          .ok (st2, some { eventId := st.nextId, exc := fetchKwExc })
        ∧ ∃ row, st2.events = st.events ++ [row]
          ∧ row.status = "failed" ∧ row.status ≠ "succeeded") := by
  refine ⟨rfl, fun b => callKw_fetch b, fun b => callKw_fetch b, rfl,
    fun b => callKw_daily_send b, ?_, ?_, ?_, ?_⟩
  · intro env st hwf hs hc
    exact ⟨_, monthly_failed_run env st hwf hs hc,
      failedRow monthlyStartArgs st.nextId env.now fetchKwExc, rfl, rfl,
      (by decide : ¬("failed" = "succeeded"))⟩
  · intro env st hwf hs hc
    exact ⟨_, daily_failed_run env st hwf hs hc,
      failedRow dailyStartArgs st.nextId env.now fetchKwExc, rfl, rfl,
      (by decide : ¬("failed" = "succeeded"))⟩
  · intro env st hwf hs hc
    exact ⟨_, runHandler_fetch_error _ _ env st hwf hs hc _ (callKw_fetch _),
      failedRow monthlyStartArgs st.nextId env.now fetchKwExc, rfl, rfl,
      (by decide : ¬("failed" = "succeeded"))⟩
  · intro env st hwf hs hc
    exact ⟨_, runHandler_fetch_error _ _ env st hwf hs hc _ (callKw_fetch _),
      failedRow dailyStartArgs st.nextId env.now fetchKwExc, rfl, rfl,
      (by decide : ¬("failed" = "succeeded"))⟩

/-- Witness for C4 at a concrete environment and state. -/
theorem handlers_always_fail_with_typeError_witness :
    (∃ st2, MonthlyBirthdaySummary envM stEmpty =
        .ok (st2, some { eventId := stEmpty.nextId, exc := fetchKwExc })
      ∧ ∃ row, st2.events = stEmpty.events ++ [row]
        ∧ row.status = "failed" ∧ row.status ≠ "succeeded")
    ∧ (∃ st2, DailyBirthdaySummary envD stEmpty =
        .ok (st2, some { eventId := stEmpty.nextId, exc := fetchKwExc })
      ∧ ∃ row, st2.events = stEmpty.events ++ [row]
        ∧ row.status = "failed" ∧ row.status ≠ "succeeded")
    ∧ (∃ st2, runHandler monthlyTestSpec
        (fun df => (send_monthly_birthday_summary_email df).result) envM stEmpty =
        .ok (st2, some { eventId := stEmpty.nextId, exc := fetchKwExc })
      ∧ ∃ row, st2.events = stEmpty.events ++ [row]
        ∧ row.status = "failed" ∧ row.status ≠ "succeeded")
    ∧ (∃ st2, runHandler dailyTestSpec
        (fun df => (send_daily_birthday_emails df).result) envD stEmpty =
        .ok (st2, some { eventId := stEmpty.nextId, exc := fetchKwExc })
      ∧ ∃ row, st2.events = stEmpty.events ++ [row]
        ∧ row.status = "failed" ∧ row.status ≠ "succeeded") :=
  ⟨handlers_always_fail_with_typeError.2.2.2.2.2.1 envM stEmpty stEmpty_wf rfl rfl,
   handlers_always_fail_with_typeError.2.2.2.2.2.2.1 envD stEmpty stEmpty_wf rfl rfl,
   handlers_always_fail_with_typeError.2.2.2.2.2.2.2.1 envM stEmpty stEmpty_wf rfl rfl,
   handlers_always_fail_with_typeError.2.2.2.2.2.2.2.2 envD stEmpty stEmpty_wf rfl rfl⟩

/-- C5: on a non-faulting environment, neither timer handler lets an
exception escape: the exception raised during fetch is caught, the audit row
is completed as `failed` with the stringified exception and a completion
timestamp, and the handler returns normally. -/
theorem timer_handlers_never_raise :
    (∀ (env : HandlerEnv (List MonthlyRow)) (st : SqlState),
      st.WF → env.startFault = none → env.completeFault = none →
      ∃ st2 fi, MonthlyBirthdaySummary env st = .ok (st2, some fi)
        ∧ ∃ row, st2.events = st.events ++ [row]
          ∧ row.status = "failed"
          ∧ row.details = some fi.exc.str
          ∧ row.completed_at = some env.now)
    ∧ (∀ (env : HandlerEnv (List DailyRow)) (st : SqlState),
      st.WF → env.startFault = none → env.completeFault = none →
      ∃ st2 fi, DailyBirthdaySummary env st = .ok (st2, some fi)
        ∧ ∃ row, st2.events = st.events ++ [row]
          ∧ row.status = "failed"
          ∧ row.details = some fi.exc.str
          ∧ row.completed_at = some env.now) := by
  constructor
  · intro env st hwf hs hc
    exact ⟨_, _, monthly_failed_run env st hwf hs hc,
      failedRow monthlyStartArgs st.nextId env.now fetchKwExc, rfl, rfl, rfl, rfl⟩
  · intro env st hwf hs hc
    exact ⟨_, _, daily_failed_run env st hwf hs hc,
      failedRow dailyStartArgs st.nextId env.now fetchKwExc, rfl, rfl, rfl, rfl⟩

/-- Witness for C5 at a concrete environment and state. -/
theorem timer_handlers_never_raise_witness :
    (∃ st2 fi, MonthlyBirthdaySummary envM stEmpty = .ok (st2, some fi)
      ∧ ∃ row, st2.events = stEmpty.events ++ [row]
        ∧ row.status = "failed" ∧ row.details = some fi.exc.str)
    ∧ (∃ st2 fi, DailyBirthdaySummary envD stEmpty = .ok (st2, some fi)
      ∧ ∃ row, st2.events = stEmpty.events ++ [row]
        ∧ row.status = "failed" ∧ row.details = some fi.exc.str) := by
  obtain ⟨st2, fi, ha, row, hb, hc, hd, _⟩ :=
    timer_handlers_never_raise.1 envM stEmpty stEmpty_wf rfl rfl
  obtain ⟨st2d, fid, had, rowd, hbd, hcd, hdd, _⟩ :=
    timer_handlers_never_raise.2 envD stEmpty stEmpty_wf rfl rfl
  exact ⟨⟨st2, fi, ha, row, hb, hc, hd⟩, ⟨st2d, fid, had, rowd, hbd, hcd, hdd⟩⟩

/-- C7: on a non-faulting environment, each HTTP test handler answers a
failed run with a response of status code 500 whose JSON body carries the
fields `status`, `message` and `system_event_id`, the latter being the id of
the audit row created at the start of that run. -/
theorem http_handlers_return_500 :
    (∀ (env : HandlerEnv (List MonthlyRow)) (st : SqlState),
      st.WF → env.startFault = none → env.completeFault = none →
      ∃ resp st2, MonthlyBirthdaySummaryTest env st = .ok (some resp, st2)
        ∧ resp.status_code = 500
        ∧ ("status", "error") ∈ resp.body
        ∧ ("message", "MonthlyBirthdaySummaryFunction failed") ∈ resp.body
        ∧ ("system_event_id", toString st.nextId) ∈ resp.body
        ∧ ∃ row, st2.events = st.events ++ [row] ∧ row.id = st.nextId)
    ∧ (∀ (env : HandlerEnv (List DailyRow)) (st : SqlState),
      st.WF → env.startFault = none → env.completeFault = none →
      ∃ resp st2, DailyBirthdaySummaryTest env st = .ok (some resp, st2)
        ∧ resp.status_code = 500
        ∧ ("status", "error") ∈ resp.body
        ∧ ("message", "DailyBirthdaySummaryFunction failed") ∈ resp.body
        ∧ ("system_event_id", toString st.nextId) ∈ resp.body
        ∧ ∃ row, st2.events = st.events ++ [row] ∧ row.id = st.nextId) := by
  constructor
  · intro env st hwf hs hc
    refine ⟨monthlyTestResponse st.nextId, _,
      monthlyTest_failed_run env st hwf hs hc, rfl, ?_, ?_, ?_,
      failedRow monthlyStartArgs st.nextId env.now fetchKwExc, rfl, rfl⟩
    · simp [monthlyTestResponse]
    · simp [monthlyTestResponse]
    · simp [monthlyTestResponse]
  · intro env st hwf hs hc
    refine ⟨dailyTestResponse st.nextId, _,
      dailyTest_failed_run env st hwf hs hc, rfl, ?_, ?_, ?_,
      failedRow dailyStartArgs st.nextId env.now fetchKwExc, rfl, rfl⟩
    · simp [dailyTestResponse]
    · simp [dailyTestResponse]
    · simp [dailyTestResponse]

/-- Witness for C7 at a concrete environment and state. -/
theorem http_handlers_return_500_witness :
    (∃ resp st2, MonthlyBirthdaySummaryTest envM stEmpty = .ok (some resp, st2)
      ∧ resp.status_code = 500
      ∧ ("system_event_id", toString stEmpty.nextId) ∈ resp.body)
    ∧ (∃ resp st2, DailyBirthdaySummaryTest envD stEmpty = .ok (some resp, st2)
      ∧ resp.status_code = 500
      ∧ ("system_event_id", toString stEmpty.nextId) ∈ resp.body) := by
  obtain ⟨resp, st2, ha, hb, _, _, hm, _⟩ :=
    http_handlers_return_500.1 envM stEmpty stEmpty_wf rfl rfl
  obtain ⟨respd, st2d, had, hbd, _, _, hmd, _⟩ :=
    http_handlers_return_500.2 envD stEmpty stEmpty_wf rfl rfl
  exact ⟨⟨resp, st2, ha, hb, hm⟩, ⟨respd, st2d, had, hbd, hmd⟩⟩

end BirthdayApp
